import Mathlib

/-!
Verification development for the CHEATS_APP meeting-transcription repository.

The definitions below are a shallow embedding of the system-audio capture
engine (src/public/windowsAudioCapture.js), of the macOS capture path and the
realtime-session orchestration (src/public/meetingsRenderer.js), and of the
backoff constants of the divergent revision kept in src/unnamed/part_001.

External effects (the electronAPI loopback calls, getDisplayMedia, the fetch
based signaling exchange, WebRTC operations, timers) are modelled by an
environment of oracles: the k-th call of each effect receives the outcome the
environment assigns to index k.  Each modelled function threads an explicit
state counting the calls it makes and recording, in order, every timer delay
it awaits, so that call-pairing and backoff claims are statements about that
state.
-/

namespace CheatsApp

/-- A thrown JavaScript error, reduced to its name and message, which are the
only parts the capture code inspects. -/
structure JsError where
  name : String
  msg : String
  deriving DecidableEq, Repr

/-- Whether the first character list is a prefix of the second. -/
def strPrefixChars : List Char → List Char → Bool
  | [], _ => true
  | _ :: _, [] => false
  | a :: as, b :: bs => a == b && strPrefixChars as bs

/-- Whether the character list pat occurs inside l. -/
def hasSub : List Char → List Char → Bool
  | [], [] => true
  | [], _ :: _ => false
  | c :: rest, pat => strPrefixChars pat (c :: rest) || hasSub rest pat

/-- JS substring test, modelling `string.includes(pat)`. -/
def strIncludes (s pat : String) : Bool :=
  hasSub s.data pat.data

/-- Classification used by the retry loop of captureSystemAudioWindows
(windowsAudioCapture.js line 131):
`error.name === "NotSupportedError" || error.message?.includes("Not supported")`. -/
def isNotSupportedError (e : JsError) : Bool :=
  e.name == "NotSupportedError" || strIncludes e.msg "Not supported"

/-- `lastError?.message || "Unknown error"`: JS falls back to the default both
when there is no recorded error and when its message is the empty string. -/
def errMsgOr : Option JsError → String
  | none => "Unknown error"
  | some e => if e.msg = "" then "Unknown error" else e.msg

/-- A media track of a captured stream; the capture code only ever stops
tracks, so the stopped flag is its whole observable state. -/
structure MediaTrack where
  stopped : Bool
  deriving DecidableEq, Repr

/-- A MediaStream as the capture code observes it: its audio track list and
its video track list (getAudioTracks / getVideoTracks). -/
structure Stream where
  audioTracks : List MediaTrack
  videoTracks : List MediaTrack
  deriving DecidableEq, Repr

/-- The only JS value our track model needs: `track.stop()` evaluates to
undefined, whose truthiness decides the macOS `&&` short-circuit. -/
inductive JsValue where
  | undef
  deriving DecidableEq, Repr

/-- Truthiness of a JS value; undefined is falsy. -/
def jsTruthy : JsValue → Bool
  | .undef => false

/-- `track.stop()`: marks the track stopped and evaluates to undefined. -/
def trackStop (t : MediaTrack) : MediaTrack × JsValue :=
  ({ t with stopped := true }, JsValue.undef)

/-- One step of the Windows video-track removal loop
(windowsAudioCapture.js lines 198-201): `track.stop(); stream.removeTrack(track)` —
the stopped track is removed, so it is not retained in the accumulator. -/
def winVideoStep (acc : List MediaTrack) (t : MediaTrack) : List MediaTrack :=
  let _stopped := trackStop t
  acc

/-- Video-track removal of captureWindowsSystemAudio
(windowsAudioCapture.js lines 197-201). -/
def winRemoveVideoTracks (stream : Stream) : Stream :=
  { stream with videoTracks := stream.videoTracks.foldl winVideoStep [] }

/-- One step of the macOS video-track removal loop (meetingsRenderer.js
line 519): `t.stop() && displayStream.removeTrack(t)`.  stop() evaluates to
undefined, which is falsy, so removeTrack is short-circuited and the stopped
track stays in the stream. -/
def macVideoStep (acc : List MediaTrack) (t : MediaTrack) : List MediaTrack :=
  let r := trackStop t
  if jsTruthy r.2 then acc else acc ++ [r.1]

/-- Video-track handling of captureSystemAudioMacOS
(meetingsRenderer.js lines 518-519). -/
def macRemoveVideoTracks (stream : Stream) : Stream :=
  { stream with videoTracks := stream.videoTracks.foldl macVideoStep [] }

/-- Source position of a timer delay awaited by the capture engine. -/
inductive SleepSite where
  /-- the post-enable activation delay (windowsAudioCapture.js line 57) -/
  | enableSettle
  /-- the delay between enable retries (windowsAudioCapture.js line 68) -/
  | enableRetry
  /-- the delay between capture retries (windowsAudioCapture.js lines 139 and 144) -/
  | captureRetry
  deriving DecidableEq, Repr

/-- Environment of external effects consumed by the capture code.  The Bool
fields say which parts of the capability surface exist
(window.electronAPI.enableLoopbackAudio / disableLoopbackAudio,
navigator.mediaDevices.getDisplayMedia, navigator.platform matching win); the
oracles give the outcome of the k-th call of each effect. -/
structure CaptureEnv where
  isWin : Bool
  hasEnableApi : Bool
  hasDisableApi : Bool
  hasGetDisplayMedia : Bool
  enableResult : Nat → Except JsError Unit
  disableResult : Nat → Except JsError Unit
  captureResult : Nat → Except JsError Stream

/-- Observable state threaded through a capture run: how many times each
external call was made, how many times disableLoopbackAudioSafe was entered,
and every timer delay awaited, in order. -/
structure CaptureSt where
  enableCalls : Nat
  disableCalls : Nat
  safeDisableCalls : Nat
  captureCalls : Nat
  sleeps : List (SleepSite × Nat)
  deriving DecidableEq, Repr

/-- Initial capture state: no calls made, no delays awaited. -/
def st0 : CaptureSt := ⟨0, 0, 0, 0, []⟩

/-- Record one awaited `setTimeout` delay. -/
def sleepEv (site : SleepSite) (ms : Nat) (s : CaptureSt) : CaptureSt :=
  { s with sleeps := s.sleeps ++ [(site, ms)] }

/-- validateLoopbackAudio (windowsAudioCapture.js lines 22-33): true exactly
when window.electronAPI.enableLoopbackAudio exists; never throws. -/
def validateLoopbackAudio (env : CaptureEnv) : Bool :=
  env.hasEnableApi

/-- Loop body of enableLoopbackAudioWithRetry (windowsAudioCapture.js
lines 41-74), by recursion on the remaining attempts.  Each iteration
validates the API, calls enableLoopbackAudio, sleeps the activation delay on
success, and otherwise records the error and sleeps the retry delay when
attempts remain; exhaustion throws the aggregated enable failure. -/
def enableGo (env : CaptureEnv) (maxRetries retryDelay : Nat) :
    Nat → Nat → Option JsError → CaptureSt → Except JsError Unit × CaptureSt
  | 0, _, lastError, s =>
      (.error ⟨"Error", "Failed to enable loopback audio after " ++ toString maxRetries
          ++ " attempts: " ++ errMsgOr lastError⟩, s)
  | Nat.succ rem, attempt, _, s =>
      if validateLoopbackAudio env then
        let r := env.enableResult s.enableCalls
        let s1 := { s with enableCalls := s.enableCalls + 1 }
        match r with
        | .ok _ => (.ok (), sleepEv SleepSite.enableSettle retryDelay s1)
        | .error e =>
            let s2 := if attempt < maxRetries then sleepEv SleepSite.enableRetry retryDelay s1 else s1
            enableGo env maxRetries retryDelay rem (attempt + 1) (some e) s2
      else
        let e : JsError := ⟨"Error", "Loopback audio API not available"⟩
        let s2 := if attempt < maxRetries then sleepEv SleepSite.enableRetry retryDelay s else s
        enableGo env maxRetries retryDelay rem (attempt + 1) (some e) s2

/-- enableLoopbackAudioWithRetry (windowsAudioCapture.js lines 41-74). -/
def enableLoopbackAudioWithRetry (env : CaptureEnv) (maxRetries retryDelay : Nat)
    (s : CaptureSt) : Except JsError Unit × CaptureSt :=
  enableGo env maxRetries retryDelay maxRetries 1 none s

/-- The inter-attempt capture backoff of windowsAudioCapture.js
(lines 137-145): retryDelay * 2 for the not-supported class, retryDelay
otherwise; the attempt number does not enter. -/
def captureBackoffDelay (retryDelay : Nat) (notSup : Bool) : Nat :=
  if notSup then retryDelay * 2 else retryDelay

/-- The inter-attempt capture backoff of the divergent revision in
src/unnamed/part_001 (lines 190-207): attempt * 1000 for the not-supported
class, retryDelay otherwise. -/
def captureBackoffDelayRev (attempt retryDelay : Nat) (notSup : Bool) : Nat :=
  if notSup then attempt * 1000 else retryDelay

/-- The enable-retry backoff of the src/unnamed/part_001 revision (line 94):
`waitTime = attempt * retryDelay`. -/
def enableBackoffDelayRev (attempt retryDelay : Nat) : Nat :=
  attempt * retryDelay

/-- The exhaustion check of windowsAudioCapture.js line 151,
`lastError?.name === "NotSupportedError"`: only the error NAME is consulted,
unlike the retry classification isNotSupportedError. -/
def lastErrorNameIsNotSupported : Option JsError → Bool
  | none => false
  | some e => e.name == "NotSupportedError"

/-- The multi-step troubleshooting message of windowsAudioCapture.js
lines 152-155. -/
def troubleshootingMsg : String :=
  "System audio capture is not supported. Please ensure:\n" ++
  "1. Windows audio permissions are granted\n" ++
  "2. Audio drivers support loopback capture\n" ++
  "3. electron-audio-loopback is properly initialized"

/-- The error thrown when captureSystemAudioWindows exhausts its attempts
(windowsAudioCapture.js lines 150-158). -/
def exhaustionError (maxRetries : Nat) (lastError : Option JsError) : JsError :=
  if lastErrorNameIsNotSupported lastError then
    ⟨"Error", troubleshootingMsg⟩
  else
    ⟨"Error", "Failed to capture system audio after " ++ toString maxRetries
        ++ " attempts: " ++ errMsgOr lastError⟩

/-- Loop body of captureSystemAudioWindows (windowsAudioCapture.js
lines 89-148), by recursion on the remaining attempts.  Each iteration runs a
2-attempt enable sub-loop, then calls getDisplayMedia; a stream is returned
as soon as one is obtained (zero audio tracks is only a warning), and any
thrown error is classified to pick the backoff before the next attempt. -/
def captureGo (env : CaptureEnv) (maxRetries retryDelay : Nat) :
    Nat → Nat → Option JsError → CaptureSt → Except JsError Stream × CaptureSt
  | 0, _, lastError, s => (.error (exhaustionError maxRetries lastError), s)
  | Nat.succ rem, attempt, _, s =>
      match enableLoopbackAudioWithRetry env 2 retryDelay s with
      | (.error e, s1) =>
          let s2 := if attempt < maxRetries then
              sleepEv SleepSite.captureRetry (captureBackoffDelay retryDelay (isNotSupportedError e)) s1
            else s1
          captureGo env maxRetries retryDelay rem (attempt + 1) (some e) s2
      | (.ok _, s1) =>
          let c := env.captureResult s1.captureCalls
          let s2 := { s1 with captureCalls := s1.captureCalls + 1 }
          match c with
          | .ok stream => (.ok stream, s2)
          | .error e =>
              let s3 := if attempt < maxRetries then
                  sleepEv SleepSite.captureRetry (captureBackoffDelay retryDelay (isNotSupportedError e)) s2
                else s2
              captureGo env maxRetries retryDelay rem (attempt + 1) (some e) s3

/-- captureSystemAudioWindows (windowsAudioCapture.js lines 83-159); its
defaults are maxRetries = 3, retryDelay = 500. -/
def captureSystemAudioWindows (env : CaptureEnv) (maxRetries retryDelay : Nat)
    (s : CaptureSt) : Except JsError Stream × CaptureSt :=
  if env.hasGetDisplayMedia then
    captureGo env maxRetries retryDelay maxRetries 1 none s
  else
    (.error ⟨"Error", "getDisplayMedia API is not supported in this browser/environment"⟩, s)

/-- disableLoopbackAudioSafe (windowsAudioCapture.js lines 165-177): entering
it is counted in safeDisableCalls; when the underlying API exists it is
called, and any error it reports is swallowed. -/
def disableLoopbackAudioSafe (env : CaptureEnv) (s : CaptureSt) : CaptureSt :=
  let s1 := { s with safeDisableCalls := s.safeDisableCalls + 1 }
  if env.hasDisableApi then
    let _r := env.disableResult s1.disableCalls
    { s1 with disableCalls := s1.disableCalls + 1 }
  else s1

/-- captureWindowsSystemAudio (windowsAudioCapture.js lines 185-215): the
platform gate, then captureSystemAudioWindows with its defaults; on success
the video tracks are stopped and removed; on a thrown error the cleanup path
stops any obtained tracks (displayStream is still null whenever the model can
throw) and calls disableLoopbackAudioSafe once before rethrowing.  No disable
happens on the success path. -/
def captureWindowsSystemAudio (env : CaptureEnv) (s : CaptureSt) :
    Except JsError Stream × CaptureSt :=
  if env.isWin then
    match captureSystemAudioWindows env 3 500 s with
    | (.ok stream, s1) => (.ok (winRemoveVideoTracks stream), s1)
    | (.error e, s1) => (.error e, disableLoopbackAudioSafe env s1)
  else
    (.error ⟨"Error", "This function is only for Windows platform"⟩, s)

/-- captureSystemAudioMacOS (meetingsRenderer.js lines 504-522): enable the
intercept (unguarded call), getDisplayMedia, disable the intercept (unguarded
call, its error propagates), then the short-circuited video-track removal. -/
def captureSystemAudioMacOS (env : CaptureEnv) (s : CaptureSt) :
    Except JsError Stream × CaptureSt :=
  if env.hasEnableApi then
    let r := env.enableResult s.enableCalls
    let s1 := { s with enableCalls := s.enableCalls + 1 }
    match r with
    | .error e => (.error e, s1)
    | .ok _ =>
        if env.hasGetDisplayMedia then
          let c := env.captureResult s1.captureCalls
          let s2 := { s1 with captureCalls := s1.captureCalls + 1 }
          match c with
          | .error e => (.error e, s2)
          | .ok stream =>
              if env.hasDisableApi then
                let d := env.disableResult s2.disableCalls
                let s3 := { s2 with disableCalls := s2.disableCalls + 1 }
                match d with
                | .error e => (.error e, s3)
                | .ok _ => (.ok (macRemoveVideoTracks stream), s3)
              else
                (.error ⟨"TypeError", "window.electronAPI.disableLoopbackAudio is not a function"⟩, s2)
        else
          (.error ⟨"TypeError", "navigator.mediaDevices.getDisplayMedia is not a function"⟩, s1)
  else
    (.error ⟨"TypeError", "window.electronAPI.enableLoopbackAudio is not a function"⟩, s)

/-- Enable oracle that always resolves. -/
def okUnit : Nat → Except JsError Unit := fun _ => .ok ()

/-- Environment where every external call succeeds and getDisplayMedia yields
a stream with one live audio track and one live video track. -/
def envCaptureOk : CaptureEnv :=
  ⟨true, true, true, true, okUnit, okUnit, fun _ => .ok ⟨[⟨false⟩], [⟨false⟩]⟩⟩

/-- Environment whose capability surface is missing enableLoopbackAudio. -/
def envNoEnableApi : CaptureEnv :=
  ⟨true, false, true, true, okUnit, okUnit, fun _ => .ok ⟨[], []⟩⟩

/-- Environment where every getDisplayMedia call throws a generic error. -/
def envGenericFail : CaptureEnv :=
  ⟨true, true, true, true, okUnit, okUnit, fun _ => .error ⟨"AbortError", "boom"⟩⟩

/-- Environment where every getDisplayMedia call throws an error whose NAME is
not NotSupportedError but whose MESSAGE contains the "Not supported" text. -/
def envMsgNotSupported : CaptureEnv :=
  ⟨true, true, true, true, okUnit, okUnit, fun _ => .error ⟨"WeirdError", "Not supported"⟩⟩

/-- Bound satisfied by every recorded delay of a windowsAudioCapture.js
capture run with retry delay d: the delay is d, or it is an inter-capture
backoff of 2 * d.  No recorded delay depends on the attempt number. -/
def sleepIsBounded (d : Nat) (x : SleepSite × Nat) : Bool :=
  x.2 == d || (x.1 == SleepSite.captureRetry && x.2 == d * 2)

/-- The inter-capture-attempt delays of a run, in order. -/
def captureRetrySleeps (s : CaptureSt) : List Nat :=
  s.sleeps.filterMap (fun x => if x.1 = SleepSite.captureRetry then some x.2 else none)

/-!
Realtime session model, from the Session class of
src/public/meetingsRenderer.js (lines 16-120).
-/

/-- Outcomes of the WebRTC and signaling steps performed once each by
Session.startInternal (meetingsRenderer.js lines 50-68).  signalResult stands
for the whole fetch-based exchange of Session.signal (lines 70-115), whose
failures (non-ok session-token response, non-ok SDP response, rejected fetch)
all surface as a thrown error. -/
structure SessionEnv where
  newPcResult : Except JsError Unit
  addTrackResult : Except JsError Unit
  createDataChannelResult : Except JsError Unit
  createOfferResult : Except JsError String
  setLocalResult : Except JsError Unit
  signalResult : Except JsError String
  setRemoteResult : Except JsError Unit

/-- What a run of Session.startInternal delivers: the value start() settles
with (an error means the returned promise rejects to the caller), and the
errors handed to the onerror callback, in order. -/
structure StartOutcome where
  result : Except JsError Unit
  onerrorCalls : List JsError
  deriving Repr

/-- Session.startInternal (meetingsRenderer.js lines 50-68).  Peer-connection
creation, addTrack, createDataChannel, createOffer and setLocalDescription run
outside any try block, so their errors reject the caller; only the signal
exchange and setRemoteDescription sit in the try whose catch hands the error
to onerror and completes normally. -/
def startInternal (env : SessionEnv) : StartOutcome :=
  match env.newPcResult with
  | .error e => ⟨.error e, []⟩
  | .ok _ =>
  match env.addTrackResult with
  | .error e => ⟨.error e, []⟩
  | .ok _ =>
  match env.createDataChannelResult with
  | .error e => ⟨.error e, []⟩
  | .ok _ =>
  match env.createOfferResult with
  | .error e => ⟨.error e, []⟩
  | .ok _offer =>
  match env.setLocalResult with
  | .error e => ⟨.error e, []⟩
  | .ok _ =>
  match env.signalResult with
  | .error e => ⟨.ok (), [e]⟩
  | .ok _answer =>
  match env.setRemoteResult with
  | .error e => ⟨.ok (), [e]⟩
  | .ok _ => ⟨.ok (), []⟩

/-- A track attached to an RTCRtpSender; mute only toggles its enabled flag. -/
structure SenderTrack where
  enabled : Bool
  deriving DecidableEq, Repr

/-- An RTCRtpSender as Session.mute observes it. -/
structure RtcSender where
  track : SenderTrack
  deriving DecidableEq, Repr

/-- The nullable handles of a Session object (meetingsRenderer.js lines
16-25): the borrowed media stream, the peer connection (modelled by its
sender list), the data channel, and the muted flag. -/
structure SessionState where
  ms : Option (List MediaTrack)
  pc : Option (List RtcSender)
  dc : Option Unit
  muted : Bool
  deriving DecidableEq, Repr

/-- A freshly constructed Session: every handle is null, muted is false. -/
def sessionNew : SessionState := ⟨none, none, none, false⟩

/-- JS optional chaining `o?.f()`: skipped on null, never throws. -/
def optCall {α β : Type} (o : Option α) (f : α → β) : Option β :=
  Option.map f o

/-- JS strict member call `o.f()`: throws a TypeError on null. -/
def jsNullCall {α β : Type} (prop : String) (o : Option α) (f : α → β) :
    Except JsError β :=
  match o with
  | none => .error ⟨"TypeError", "Cannot read properties of null reading " ++ prop⟩
  | some a => .ok (f a)

/-- Session.stop (meetingsRenderer.js lines 35-43): every dereference is
optional-chained (`dc?.close()`, `pc?.close()`, `ms?.getTracks()`), so stop
never throws and leaves every handle null and muted false. -/
def sessionStop (st : SessionState) : Except JsError SessionState :=
  let _dcClose := optCall st.dc (fun _ => ())
  let _pcClose := optCall st.pc (fun _ => ())
  let _msStop := optCall st.ms (fun tracks => tracks.map (fun t => { t with stopped := true }))
  .ok ⟨none, none, none, false⟩

/-- Session.mute (meetingsRenderer.js lines 45-48): sets this.muted, then
dereferences this.pc without a guard — `this.pc.getSenders()` throws a
TypeError whenever pc is null. -/
def sessionMute (m : Bool) (st : SessionState) : Except JsError SessionState :=
  let st1 := { st with muted := m }
  match jsNullCall "getSenders" st1.pc
      (fun senders => senders.map (fun sn => { sn with track := { sn.track with enabled := !m } })) with
  | .error e => .error e
  | .ok senders1 => .ok { st1 with pc := some senders1 }

/-!
Dual-session message dispatch, from handleMicrophoneMessage and
handleSystemAudioMessage of src/public/meetingsRenderer.js (lines 363-433),
over the module-level per-role state (lines 253-258).
-/

/-- The slice of a transcription_session.created payload the handlers read:
the session id and turn_detection.silence_duration_ms. -/
structure SessionCfg where
  id : String
  silenceDurationMs : Int
  deriving DecidableEq, Repr

/-- Inbound data-channel messages the per-role handlers dispatch on. -/
inductive RtMsg where
  | sessionCreated (cfg : SessionCfg)
  | speechStarted
  | speechStopped
  | transcriptionCompleted (transcriptText : String)
  | otherMsg
  deriving DecidableEq, Repr

/-- A transcript record handed to the rendering layer.  latencyMs is the
numeric value the code formats with toFixed(0). -/
structure TranscriptEvent where
  text : String
  interim : Bool
  latencyMs : Option Int
  deriving DecidableEq, Repr

/-- The module-level per-role state of meetingsRenderer.js (lines 255-258):
the two session-config echoes and the two VAD baseline timestamps. -/
structure RendererState where
  microphoneSessionConfig : Option SessionCfg
  systemAudioSessionConfig : Option SessionCfg
  microphoneVadTime : Int
  systemAudioVadTime : Int
  deriving DecidableEq, Repr

/-- The state at module load: both configs null, both timers 0. -/
def initialRendererState : RendererState := ⟨none, none, 0, 0⟩

/-- What one handler invocation produces: an error thrown out of the handler
(if any), the updated per-role state, and the transcripts emitted to the
rendering layer before the throw. -/
structure HandlerResult where
  thrown : Option JsError
  state : RendererState
  emitted : List TranscriptEvent
  deriving DecidableEq, Repr

/-- The TypeError raised by reading turn_detection off a still-null session
config (meetingsRenderer.js lines 385 and 421). -/
def nullConfigError : JsError :=
  ⟨"TypeError", "Cannot read properties of null reading turn_detection"⟩

/-- handleMicrophoneTranscript / handleSystemAudioTranscript gate
(meetingsRenderer.js lines 436-439): a falsy (empty) transcript text is
dropped; otherwise the record is appended to the transcript panel. -/
def emitTranscript (t : TranscriptEvent) : List TranscriptEvent :=
  if t.text = "" then [] else [t]

/-- handleMicrophoneMessage (meetingsRenderer.js lines 363-397), given the
current performance.now() value.  On speech_stopped the partial record is
emitted first, then the VAD baseline is set to now minus the configured
silence duration — reading it off a null microphoneSessionConfig throws.  On
transcription completion the latency is now minus the microphone baseline. -/
def handleMicrophoneMessage (now : Int) (msg : RtMsg) (st : RendererState) :
    HandlerResult :=
  match msg with
  | .sessionCreated cfg => ⟨none, { st with microphoneSessionConfig := some cfg }, []⟩
  | .speechStarted => ⟨none, st, emitTranscript ⟨"...", true, none⟩⟩
  | .speechStopped =>
      let emitted := emitTranscript ⟨"...", true, none⟩
      match st.microphoneSessionConfig with
      | none => ⟨some nullConfigError, st, emitted⟩
      | some cfg => ⟨none, { st with microphoneVadTime := now - cfg.silenceDurationMs }, emitted⟩
  | .transcriptionCompleted t =>
      let elapsed := now - st.microphoneVadTime
      ⟨none, st, emitTranscript ⟨t, false, some elapsed⟩⟩
  | .otherMsg => ⟨none, st, []⟩

/-- handleSystemAudioMessage (meetingsRenderer.js lines 399-433), the
system-audio twin of handleMicrophoneMessage over its own config and timer. -/
def handleSystemAudioMessage (now : Int) (msg : RtMsg) (st : RendererState) :
    HandlerResult :=
  match msg with
  | .sessionCreated cfg => ⟨none, { st with systemAudioSessionConfig := some cfg }, []⟩
  | .speechStarted => ⟨none, st, emitTranscript ⟨"...", true, none⟩⟩
  | .speechStopped =>
      let emitted := emitTranscript ⟨"...", true, none⟩
      match st.systemAudioSessionConfig with
      | none => ⟨some nullConfigError, st, emitted⟩
      | some cfg => ⟨none, { st with systemAudioVadTime := now - cfg.silenceDurationMs }, emitted⟩
  | .transcriptionCompleted t =>
      let elapsed := now - st.systemAudioVadTime
      ⟨none, st, emitTranscript ⟨t, false, some elapsed⟩⟩
  | .otherMsg => ⟨none, st, []⟩

/-- Session environment where every step up to the signaling exchange
succeeds and the exchange itself fails with the thrown signal error. -/
def envSignalFail : SessionEnv :=
  ⟨.ok (), .ok (), .ok (), .ok "offer", .ok (), .error ⟨"Error", "Failed to signal"⟩, .ok ()⟩

/-- Session environment where setLocalDescription fails before the try block
around signaling is entered. -/
def envSetLocalFail : SessionEnv :=
  ⟨.ok (), .ok (), .ok (), .ok "offer", .error ⟨"Error", "setLocalDescription failed"⟩,
   .ok "answer", .ok ()⟩

/-!
Helper lemmas about the capture retry loops.
-/

theorem foldl_winVideoStep (l acc : List MediaTrack) :
    l.foldl winVideoStep acc = acc := by
  induction l generalizing acc with
  | nil => rfl
  | cons h t ih => exact ih acc

theorem disableLoopbackAudioSafe_count (env : CaptureEnv) (s : CaptureSt) :
    (disableLoopbackAudioSafe env s).safeDisableCalls = s.safeDisableCalls + 1 := by
  unfold disableLoopbackAudioSafe
  split <;> rfl

theorem enableGo_safeDisable (env : CaptureEnv) (mR d : Nat) :
    ∀ (fuel attempt : Nat) (le : Option JsError) (s : CaptureSt),
      ((enableGo env mR d fuel attempt le s).2).safeDisableCalls = s.safeDisableCalls := by
  intro fuel
  induction fuel with
  | zero => intro attempt le s; rfl
  | succ rem ih =>
    intro attempt le s
    unfold enableGo
    split
    · cases he : env.enableResult s.enableCalls with
      | ok u => rfl
      | error e => simp only [ih]; split <;> rfl
    · simp only [ih]; split <;> rfl

theorem enableGo_captureCalls (env : CaptureEnv) (mR d : Nat) :
    ∀ (fuel attempt : Nat) (le : Option JsError) (s : CaptureSt),
      ((enableGo env mR d fuel attempt le s).2).captureCalls = s.captureCalls := by
  intro fuel
  induction fuel with
  | zero => intro attempt le s; rfl
  | succ rem ih =>
    intro attempt le s
    unfold enableGo
    split
    · cases he : env.enableResult s.enableCalls with
      | ok u => rfl
      | error e => simp only [ih]; split <;> rfl
    · simp only [ih]; split <;> rfl

theorem captureGo_safeDisable (env : CaptureEnv) (m d : Nat) :
    ∀ (fuel attempt : Nat) (le : Option JsError) (s : CaptureSt),
      ((captureGo env m d fuel attempt le s).2).safeDisableCalls = s.safeDisableCalls := by
  intro fuel
  induction fuel with
  | zero => intro attempt le s; rfl
  | succ rem ih =>
    intro attempt le s
    have hen : (enableLoopbackAudioWithRetry env 2 d s).2.safeDisableCalls = s.safeDisableCalls :=
      enableGo_safeDisable env 2 d 2 1 none s
    unfold captureGo
    split
    next e s1 heq =>
      rw [heq] at hen
      simp only [ih]
      split <;> exact hen
    next u s1 heq =>
      rw [heq] at hen
      cases hc : env.captureResult s1.captureCalls with
      | ok stream => exact hen
      | error e => simp only [ih]; split <;> exact hen

theorem captureGo_captureCalls_le (env : CaptureEnv) (m d : Nat) :
    ∀ (fuel attempt : Nat) (le : Option JsError) (s : CaptureSt),
      ((captureGo env m d fuel attempt le s).2).captureCalls ≤ s.captureCalls + fuel := by
  intro fuel
  induction fuel with
  | zero => intro attempt le s; simp [captureGo]
  | succ rem ih =>
    intro attempt le s
    have hen : (enableLoopbackAudioWithRetry env 2 d s).2.captureCalls = s.captureCalls :=
      enableGo_captureCalls env 2 d 2 1 none s
    unfold captureGo
    split
    next e s1 heq =>
      rw [heq] at hen
      have hen2 : s1.captureCalls = s.captureCalls := hen
      simp only []
      refine le_trans (ih _ _ _) ?_
      have hsl : (if attempt < m then
          sleepEv SleepSite.captureRetry (captureBackoffDelay d (isNotSupportedError e)) s1
        else s1).captureCalls = s1.captureCalls := by split <;> rfl
      rw [hsl, hen2]
      omega
    next u s1 heq =>
      rw [heq] at hen
      have hen2 : s1.captureCalls = s.captureCalls := hen
      cases hc : env.captureResult s1.captureCalls with
      | ok stream =>
        show s1.captureCalls + 1 ≤ s.captureCalls + (rem + 1)
        omega
      | error e =>
        simp only []
        refine le_trans (ih _ _ _) ?_
        have hsl : (if attempt < m then
            sleepEv SleepSite.captureRetry (captureBackoffDelay d (isNotSupportedError e))
              { s1 with captureCalls := s1.captureCalls + 1 }
          else { s1 with captureCalls := s1.captureCalls + 1 }).captureCalls
            = s1.captureCalls + 1 := by split <;> rfl

        rw [hsl, hen2]
        omega

theorem captureGo_error_shape (env : CaptureEnv) (m d : Nat) :
    ∀ (fuel attempt : Nat) (le : Option JsError) (s : CaptureSt) (e : JsError),
      (captureGo env m d fuel attempt le s).1 = .error e →
      ∃ l, e = exhaustionError m l := by
  intro fuel
  induction fuel with
  | zero =>
    intro attempt le s e h
    simp only [captureGo, Except.error.injEq] at h
    exact ⟨le, h.symm⟩
  | succ rem ih =>
    intro attempt le s e h
    rw [captureGo] at h
    revert h
    split
    next e1 s1 heq => intro h; exact ih _ _ _ _ h
    next u s1 heq =>
      cases hc : env.captureResult s1.captureCalls with
      | ok stream => intro h; simp at h
      | error e1 => intro h; exact ih _ _ _ _ h

theorem sleepIsBounded_backoff (d : Nat) (b : Bool) :
    sleepIsBounded d (SleepSite.captureRetry, captureBackoffDelay d b) = true := by
  cases b <;> simp [sleepIsBounded, captureBackoffDelay]

theorem enableGo_sleeps_bounded (env : CaptureEnv) (mR d : Nat) :
    ∀ (fuel attempt : Nat) (le : Option JsError) (s : CaptureSt),
      s.sleeps.all (sleepIsBounded d) = true →
      ((enableGo env mR d fuel attempt le s).2).sleeps.all (sleepIsBounded d) = true := by
  intro fuel
  induction fuel with
  | zero => intro attempt le s h; exact h
  | succ rem ih =>
    intro attempt le s h
    unfold enableGo
    split
    · cases he : env.enableResult s.enableCalls with
      | ok u => simp [sleepEv, List.all_append, h, sleepIsBounded]
      | error e =>
        apply ih
        split <;> simp [sleepEv, List.all_append, h, sleepIsBounded]
    · apply ih
      split <;> simp [sleepEv, List.all_append, h, sleepIsBounded]

theorem captureGo_sleeps_bounded (env : CaptureEnv) (m d : Nat) :
    ∀ (fuel attempt : Nat) (le : Option JsError) (s : CaptureSt),
      s.sleeps.all (sleepIsBounded d) = true →
      ((captureGo env m d fuel attempt le s).2).sleeps.all (sleepIsBounded d) = true := by
  intro fuel
  induction fuel with
  | zero => intro attempt le s h; exact h
  | succ rem ih =>
    intro attempt le s h
    have hen : ((enableLoopbackAudioWithRetry env 2 d s).2).sleeps.all (sleepIsBounded d) = true :=
      enableGo_sleeps_bounded env 2 d 2 1 none s h
    unfold captureGo
    split
    next e s1 heq =>
      rw [heq] at hen
      have hen2 : s1.sleeps.all (sleepIsBounded d) = true := hen
      apply ih
      split
      · simp [sleepEv, List.all_append, hen2, sleepIsBounded_backoff d (isNotSupportedError e)]
      · exact hen2
    next u s1 heq =>
      rw [heq] at hen
      have hen2 : s1.sleeps.all (sleepIsBounded d) = true := hen
      cases hc : env.captureResult s1.captureCalls with
      | ok stream => exact hen2
      | error e =>
        apply ih
        split
        · simp [sleepEv, List.all_append, hen2, sleepIsBounded_backoff d (isNotSupportedError e)]
        · exact hen2

/-!
The claims.
-/

/-- C1, counterexample: on a run of captureWindowsSystemAudio where the very
first capture attempt succeeds, disableLoopbackAudioSafe is invoked zero
times, not exactly once — enable and disable are not paired on the success
path. -/
theorem c1_counterexample :
    (captureWindowsSystemAudio envCaptureOk st0).1 = .ok ⟨[⟨false⟩], []⟩
    ∧ (captureWindowsSystemAudio envCaptureOk st0).2.enableCalls = 1
    ∧ (captureWindowsSystemAudio envCaptureOk st0).2.safeDisableCalls = 0
    ∧ ¬((captureWindowsSystemAudio envCaptureOk st0).2.safeDisableCalls = 1) := by
  refine ⟨rfl, rfl, rfl, by decide⟩

/-- C1, amended: in every captureWindowsSystemAudio run on the Windows
platform, disableLoopbackAudioSafe is invoked exactly once when the run ends
in a thrown error, and zero times when the run returns a stream; the disable
is therefore paired with the enables only on failing runs. -/
theorem c1_amended_disable_only_on_error (env : CaptureEnv) (s : CaptureSt)
    (hwin : env.isWin = true) :
    (∀ e, (captureWindowsSystemAudio env s).1 = .error e →
        (captureWindowsSystemAudio env s).2.safeDisableCalls = s.safeDisableCalls + 1)
    ∧ (∀ stream, (captureWindowsSystemAudio env s).1 = .ok stream →
        (captureWindowsSystemAudio env s).2.safeDisableCalls = s.safeDisableCalls) := by
  have hcap : ((captureSystemAudioWindows env 3 500 s).2).safeDisableCalls = s.safeDisableCalls := by
    unfold captureSystemAudioWindows
    split
    · exact captureGo_safeDisable env 3 500 3 1 none s
    · rfl
  unfold captureWindowsSystemAudio
  rw [hwin]
  simp only [if_true]
  constructor
  · intro e
    split
    next stream s1 heq => intro h; cases h
    next e1 s1 heq =>
      intro _
      rw [heq] at hcap
      have h1 : s1.safeDisableCalls = s.safeDisableCalls := hcap
      rw [disableLoopbackAudioSafe_count, h1]
  · intro stream
    split
    next stream1 s1 heq =>
      intro _
      rw [heq] at hcap
      exact hcap
    next e1 s1 heq => intro h; cases h

/-- C1, witness for the amended theorem: a concrete failing run enters
disableLoopbackAudioSafe exactly once. -/
theorem c1_witness :
    (captureWindowsSystemAudio envGenericFail st0).2.safeDisableCalls = st0.safeDisableCalls + 1 := by
  have h := (c1_amended_disable_only_on_error envGenericFail st0 rfl).1
  exact h ⟨"Error", "Failed to capture system audio after 3 attempts: boom"⟩ rfl

/-- C2 (code bug): on the macOS path a stream is returned whose video track
is stopped but NOT removed — `t.stop() && displayStream.removeTrack(t)`
short-circuits on the undefined returned by stop(), so getVideoTracks() is
nonempty after return; the Windows removal loop, by contrast, does leave the
stream with zero video tracks. -/
theorem c2_macos_video_track_retained :
    (captureSystemAudioMacOS envCaptureOk st0).1 = .ok ⟨[⟨false⟩], [⟨true⟩]⟩
    ∧ ¬((macRemoveVideoTracks ⟨[⟨false⟩], [⟨false⟩]⟩).videoTracks.length = 0)
    ∧ (∀ stream : Stream, (winRemoveVideoTracks stream).videoTracks = []) := by
  refine ⟨rfl, by decide, ?_⟩
  intro stream
  unfold winRemoveVideoTracks
  simp [foldl_winVideoStep]

/-- C3, counterexample: with enableLoopbackAudio absent the Windows capture
path does make zero getDisplayMedia calls, but it does NOT fail immediately
with no retry delays: the run awaits five retry delays before throwing the
aggregated generic error. -/
theorem c3_counterexample :
    (captureSystemAudioWindows envNoEnableApi 3 500 st0).2.captureCalls = 0
    ∧ (captureSystemAudioWindows envNoEnableApi 3 500 st0).2.sleeps.length = 5
    ∧ ¬((captureSystemAudioWindows envNoEnableApi 3 500 st0).2.sleeps.length = 0)
    ∧ (captureSystemAudioWindows envNoEnableApi 3 500 st0).1 =
        .error ⟨"Error", "Failed to capture system audio after 3 attempts: " ++
          "Failed to enable loopback audio after 2 attempts: Loopback audio API not available"⟩ := by
  refine ⟨rfl, rfl, by decide, rfl⟩

/-- C3, amended: whenever enableLoopbackAudio is undefined (and
getDisplayMedia exists), captureSystemAudioWindows with its default policy
makes zero enableLoopbackAudio calls and zero getDisplayMedia calls, but only
fails after all three outer attempts each re-run the two-attempt validation
loop, awaiting five retry delays of 500 ms; the final error is the aggregated
generic message wrapping the API-not-available failure, not a distinct
ApiUnavailable error value. -/
theorem c3_amended_capability_missing (w db : Bool)
    (enR disR : Nat → Except JsError Unit) (capR : Nat → Except JsError Stream) :
    captureSystemAudioWindows ⟨w, false, db, true, enR, disR, capR⟩ 3 500 st0 =
      (.error ⟨"Error", "Failed to capture system audio after 3 attempts: " ++
          "Failed to enable loopback audio after 2 attempts: Loopback audio API not available"⟩,
       ⟨0, 0, 0, 0, [(SleepSite.enableRetry, 500), (SleepSite.captureRetry, 500),
                     (SleepSite.enableRetry, 500), (SleepSite.captureRetry, 500),
                     (SleepSite.enableRetry, 500)]⟩) := rfl

/-- C4, counterexample: in a run whose capture attempts all fail with a
generic (retryable) error and baseDelayMs = 500, the two inter-capture-attempt
delays are [500, 500], not the [1 * 500, 2 * 500] the linear-backoff claim
predicts. -/
theorem c4_counterexample :
    captureRetrySleeps (captureSystemAudioWindows envGenericFail 3 500 st0).2 = [500, 500]
    ∧ ¬(captureRetrySleeps (captureSystemAudioWindows envGenericFail 3 500 st0).2
        = [1 * 500, 2 * 500]) := by
  refine ⟨rfl, by decide⟩

/-- C4, amended: the backoff of windowsAudioCapture.js is attempt-independent
— every delay awaited in a captureSystemAudioWindows run with retry delay d is
d, or d * 2 for an inter-capture backoff after a not-supported-class failure;
only the divergent revision in src/unnamed/part_001 waits attempt * 1000 for
the not-supported class, and its linear attempt * retryDelay backoff belongs
to its enable sub-loop, not to the capture loop, whose generic delay is the
constant retryDelay in both revisions. -/
theorem c4_amended_backoff_delays (env : CaptureEnv) (m d a : Nat) :
    ((captureSystemAudioWindows env m d st0).2.sleeps.all (sleepIsBounded d) = true)
    ∧ captureBackoffDelay d false = d
    ∧ captureBackoffDelay d true = d * 2
    ∧ captureBackoffDelayRev a d true = a * 1000
    ∧ captureBackoffDelayRev a d false = d
    ∧ enableBackoffDelayRev a d = a * d := by
  refine ⟨?_, rfl, rfl, rfl, rfl, rfl⟩
  unfold captureSystemAudioWindows
  split
  · exact captureGo_sleeps_bounded env m d m 1 none st0 rfl
  · rfl

/-- C5, counterexample: a run whose capture attempts all fail with an error
in the designated not-supported class (classified by its message text, the
same classification that selects the longer backoff) exhausts its retries
with the GENERIC aggregated message, not the multi-step troubleshooting
message — the exhaustion text is not determined by that class. -/
theorem c5_counterexample :
    isNotSupportedError ⟨"WeirdError", "Not supported"⟩ = true
    ∧ captureRetrySleeps (captureSystemAudioWindows envMsgNotSupported 3 500 st0).2
        = [1000, 1000]
    ∧ (captureSystemAudioWindows envMsgNotSupported 3 500 st0).1 =
        .error ⟨"Error", "Failed to capture system audio after 3 attempts: Not supported"⟩
    ∧ ¬("Failed to capture system audio after 3 attempts: Not supported" = troubleshootingMsg) := by
  refine ⟨by decide, rfl, rfl, by decide⟩

/-- C5, amended: captureSystemAudioWindows never makes more than maxRetries
getDisplayMedia calls in one run, and every exhaustion failure is the
aggregated exhaustionError of some last observed error; that error carries
the multi-step troubleshooting message exactly when the NAME of the last error is
NotSupportedError, and otherwise the generic aggregated message — membership
in the not-supported class through the message text alone affects only the
backoff, never the exhaustion text. -/
theorem c5_amended_exhaustion (env : CaptureEnv) (m d : Nat) (s : CaptureSt)
    (hgdm : env.hasGetDisplayMedia = true) :
    ((captureSystemAudioWindows env m d s).2.captureCalls ≤ s.captureCalls + m)
    ∧ (∀ e, (captureSystemAudioWindows env m d s).1 = .error e →
        ∃ l, e = exhaustionError m l)
    ∧ (∀ le : JsError, le.name = "NotSupportedError" →
        exhaustionError m (some le) = ⟨"Error", troubleshootingMsg⟩)
    ∧ (∀ le : JsError, ¬(le.name = "NotSupportedError") →
        exhaustionError m (some le) =
          ⟨"Error", "Failed to capture system audio after " ++ toString m
              ++ " attempts: " ++ errMsgOr (some le)⟩) := by
  refine ⟨?_, ?_, ?_, ?_⟩
  · unfold captureSystemAudioWindows
    rw [hgdm]
    simp only [if_true]
    exact captureGo_captureCalls_le env m d m 1 none s
  · unfold captureSystemAudioWindows
    rw [hgdm]
    simp only [if_true]
    exact captureGo_error_shape env m d m 1 none s
  · intro le hle
    simp [exhaustionError, lastErrorNameIsNotSupported, hle]
  · intro le hle
    have hfalse : (le.name == "NotSupportedError") = false := by
      simpa [beq_iff_eq] using hle
    simp [exhaustionError, lastErrorNameIsNotSupported, hfalse]

/-- C5, witness for the amended theorem: the concrete generic-failure run
makes at most three capture calls. -/
theorem c5_witness :
    (captureSystemAudioWindows envGenericFail 3 500 st0).2.captureCalls
      ≤ st0.captureCalls + 3 :=
  (c5_amended_exhaustion envGenericFail 3 500 st0 rfl).1

/-- C6 (confirmed): whenever every step before the try block succeeds, a
failure of the signaling exchange, or of applying the remote answer, makes
startInternal complete normally (so start() resolves rather than rejects)
and delivers exactly that error to the onerror callback. -/
theorem c6_signaling_failure_via_onerror (env : SessionEnv) (e : JsError)
    (h1 : env.newPcResult = .ok ()) (h2 : env.addTrackResult = .ok ())
    (h3 : env.createDataChannelResult = .ok ())
    (h4 : ∃ o, env.createOfferResult = .ok o) (h5 : env.setLocalResult = .ok ())
    (h6 : env.signalResult = .error e
        ∨ (∃ a, env.signalResult = .ok a ∧ env.setRemoteResult = .error e)) :
    startInternal env = ⟨.ok (), [e]⟩ := by
  obtain ⟨o, ho⟩ := h4
  rcases h6 with hs | ⟨a, ha, hr⟩
  · simp [startInternal, h1, h2, h3, ho, h5, hs]
  · simp [startInternal, h1, h2, h3, ho, h5, ha, hr]

/-- C6, witness: a concrete session run whose signaling exchange fails
resolves normally and reports the failure through onerror. -/
theorem c6_witness :
    startInternal envSignalFail = ⟨.ok (), [⟨"Error", "Failed to signal"⟩]⟩ :=
  c6_signaling_failure_via_onerror envSignalFail ⟨"Error", "Failed to signal"⟩
    rfl rfl rfl ⟨"offer", rfl⟩ rfl (.inl rfl)

/-- C7 (confirmed): a message for one role never touches the VAD baseline or
config of the other role, and in the interleaved scenario — speech_stopped for
the microphone at tA, then speech_stopped for system audio at tB, then the
microphone final transcript at tC — the reported latency is computed from the
own baseline tA - silenceA of the microphone role, independent of tB and of the
system-audio config. -/
theorem c7_per_role_latency_baseline :
    (∀ (now : Int) (msg : RtMsg) (st : RendererState),
        (handleSystemAudioMessage now msg st).state.microphoneVadTime = st.microphoneVadTime
        ∧ (handleSystemAudioMessage now msg st).state.microphoneSessionConfig
            = st.microphoneSessionConfig)
    ∧ (∀ (now : Int) (msg : RtMsg) (st : RendererState),
        (handleMicrophoneMessage now msg st).state.systemAudioVadTime = st.systemAudioVadTime
        ∧ (handleMicrophoneMessage now msg st).state.systemAudioSessionConfig
            = st.systemAudioSessionConfig)
    ∧ (∀ (cfgA cfgB : SessionCfg) (tA tB tC : Int),
        (handleMicrophoneMessage tC (.transcriptionCompleted "hello")
          (handleSystemAudioMessage tB .speechStopped
            (handleMicrophoneMessage tA .speechStopped
              (handleSystemAudioMessage 0 (.sessionCreated cfgB)
                (handleMicrophoneMessage 0 (.sessionCreated cfgA)
                  initialRendererState).state).state).state).state).emitted
        = [⟨"hello", false, some (tC - (tA - cfgA.silenceDurationMs))⟩]) := by
  refine ⟨?_, ?_, ?_⟩
  · intro now msg st
    cases msg with
    | speechStopped => cases h : st.systemAudioSessionConfig <;> simp [handleSystemAudioMessage, h]
    | _ => simp [handleSystemAudioMessage]
  · intro now msg st
    cases msg with
    | speechStopped => cases h : st.microphoneSessionConfig <;> simp [handleMicrophoneMessage, h]
    | _ => simp [handleMicrophoneMessage]
  · intro cfgA cfgB tA tB tC
    rfl

/-- C8 (confirmed): Session.mute dereferences the null peer-connection
handle and throws on a session that was never started and on a stopped
session, while Session.stop is safe in those same states: it never throws and
always leaves every handle null. -/
theorem c8_mute_throws_on_null_pc :
    (∀ m : Bool, sessionMute m sessionNew =
        .error ⟨"TypeError", "Cannot read properties of null reading getSenders"⟩)
    ∧ (∀ st : SessionState, sessionStop st = .ok ⟨none, none, none, false⟩)
    ∧ (∀ (m : Bool) (st st' : SessionState), sessionStop st = .ok st' →
        sessionMute m st' =
          .error ⟨"TypeError", "Cannot read properties of null reading getSenders"⟩) := by
  refine ⟨fun m => rfl, fun st => rfl, ?_⟩
  intro m st st' h
  have h2 : (⟨none, none, none, false⟩ : SessionState) = st' := by
    injection h
  rw [← h2]
  rfl

/-- C8, witness: muting a twice-nulled session concretely throws while the
stop that produced it succeeded. -/
theorem c8_witness :
    sessionMute true ⟨none, none, none, false⟩ =
      .error ⟨"TypeError", "Cannot read properties of null reading getSenders"⟩ :=
  (c8_mute_throws_on_null_pc).2.2 true sessionNew ⟨none, none, none, false⟩ rfl

/-- C9 (confirmed): dispatching input_audio_buffer.speech_stopped for a role
whose transcription_session.created has not yet been handled throws the
null-config TypeError and leaves the state unchanged, so no VAD baseline is
recorded; the partial "..." record has already been emitted when the throw
happens. -/
theorem c9_speech_stopped_before_created_throws (now : Int) (st : RendererState) :
    (st.microphoneSessionConfig = none →
      handleMicrophoneMessage now .speechStopped st =
        ⟨some nullConfigError, st, [⟨"...", true, none⟩]⟩)
    ∧ (st.systemAudioSessionConfig = none →
      handleSystemAudioMessage now .speechStopped st =
        ⟨some nullConfigError, st, [⟨"...", true, none⟩]⟩) := by
  constructor
  · intro h
    simp [handleMicrophoneMessage, h, emitTranscript]
  · intro h
    simp [handleSystemAudioMessage, h, emitTranscript]

/-- C9, witness: speech_stopped at module-initial state (no created message
handled for either role) concretely throws for the microphone role. -/
theorem c9_witness :
    handleMicrophoneMessage 5 .speechStopped initialRendererState =
      ⟨some nullConfigError, initialRendererState, [⟨"...", true, none⟩]⟩ :=
  (c9_speech_stopped_before_created_throws 5 initialRendererState).1 rfl

/-- C10 (confirmed): an error in any step before the try block around
signaling — creating the peer connection, adding the track, creating the
offer, or setting the local description — makes startInternal reject with
that error and never reaches the onerror callback. -/
theorem c10_presignal_errors_reject (env : SessionEnv) (e : JsError) :
    (env.newPcResult = .error e → startInternal env = ⟨.error e, []⟩)
    ∧ (env.newPcResult = .ok () → env.addTrackResult = .error e →
        startInternal env = ⟨.error e, []⟩)
    ∧ (env.newPcResult = .ok () → env.addTrackResult = .ok () →
        env.createDataChannelResult = .ok () → env.createOfferResult = .error e →
        startInternal env = ⟨.error e, []⟩)
    ∧ (env.newPcResult = .ok () → env.addTrackResult = .ok () →
        env.createDataChannelResult = .ok () → (∃ o, env.createOfferResult = .ok o) →
        env.setLocalResult = .error e → startInternal env = ⟨.error e, []⟩) := by
  refine ⟨?_, ?_, ?_, ?_⟩
  · intro h1
    simp [startInternal, h1]
  · intro h1 h2
    simp [startInternal, h1, h2]
  · intro h1 h2 h3 h4
    simp [startInternal, h1, h2, h3, h4]
  · intro h1 h2 h3 h4 h5
    obtain ⟨o, ho⟩ := h4
    simp [startInternal, h1, h2, h3, ho, h5]

/-- C10, witness: a concrete run whose setLocalDescription step fails rejects
with that error and calls onerror zero times. -/
theorem c10_witness :
    startInternal envSetLocalFail = ⟨.error ⟨"Error", "setLocalDescription failed"⟩, []⟩ :=
  (c10_presignal_errors_reject envSetLocalFail ⟨"Error", "setLocalDescription failed"⟩).2.2.2
    rfl rfl rfl ⟨"offer", rfl⟩ rfl

end CheatsApp
